import Mathlib

/-!
Verification of the mock API layer of the pharma-zen-poc storefront
(`src/shared/lib/api/mock.ts`), shallowly embedded in Lean 4.

Modelling conventions:
* JavaScript numbers (prices, totals) are modelled as exact rationals `ℚ`;
  quantities are modelled as `Int`.
* The mutable module-level arrays (`mockUsers`, `mockProducts`, `mockCarts`,
  `mockOrders`) and the `currentUser` pointer are collected in a `MockState`
  record; every API function takes the state and returns the result together
  with the state after the call.  A thrown `Error` is modelled as
  `Except.error msg`; the state component returned alongside an error is the
  state at the moment of the throw (in the source every `throw` happens before
  any mutation, and the definitions below transliterate that ordering).
* `generateId` (`Date.now()` + randomness) is modelled by a fresh-id counter
  `nextId` threaded through the state: each call yields `mkId nextId` and
  bumps the counter, at exactly the program points where the source calls
  `generateId()`.
* `new Date().toISOString()` is modelled by an explicit `now : String`
  argument to each operation that stores a timestamp.
* `Array.prototype.find` is `List.find?`; `findIndex` followed by an indexed
  assignment (`arr[i] = x`, a no-op on the array elements when the index
  is `-1`) is `setFirstP`; `findIndex` followed by `splice(i, 1)` is
  `eraseFirstP`; `filter` is `List.filter`; `reduce` is `List.foldl`;
  `String.prototype.includes` is `strIncludes`; `toLowerCase` is
  `jsToLower`.
-/

/-- The `UserRole` from `types.ts`: `'admin' | 'customer'`. -/
inductive UserRole where
  | admin
  | customer
deriving DecidableEq, Repr

/-- The `ProductCategory` from `types.ts`: `'pharmacy' | 'health' | 'personal-care'`. -/
inductive ProductCategory where
  | pharmacy
  | health
  | personalCare
deriving DecidableEq, Repr

/-- The `OrderStatus` from `types.ts`:
`'pending' | 'confirmed' | 'shipped' | 'delivered' | 'cancelled'`. -/
inductive OrderStatus where
  | pending
  | confirmed
  | shipped
  | delivered
  | cancelled
deriving DecidableEq, Repr

/-- The `User` entity from `types.ts`. -/
structure User where
  id : String
  email : String
  firstName : String
  lastName : String
  role : UserRole
  createdAt : String
  updatedAt : String
deriving DecidableEq, Repr

/-- The `Product` entity from `types.ts`. -/
structure Product where
  id : String
  name : String
  description : String
  price : ℚ
  category : ProductCategory
  imageUrl : Option String
  inStock : Bool
  stockQuantity : Int
  createdAt : String
  updatedAt : String
deriving DecidableEq, Repr

/-- The `ProductRequest` from `types.ts` (payload of `createProduct`). -/
structure ProductRequest where
  name : String
  description : String
  price : ℚ
  category : ProductCategory
  imageUrl : Option String
  stockQuantity : Int
deriving DecidableEq, Repr

/-- The `Partial<ProductRequest>` (payload of `updateProduct`): every field
optional; an absent field leaves the stored product's field unchanged. -/
structure ProductUpdate where
  name : Option String := none
  description : Option String := none
  price : Option ℚ := none
  category : Option ProductCategory := none
  imageUrl : Option String := none
  stockQuantity : Option Int := none
deriving DecidableEq, Repr

/-- The `CartItem` from `types.ts`: a cart line embedding a denormalized
product snapshot. -/
structure CartItem where
  id : String
  productId : String
  product : Product
  quantity : Int
  addedAt : String
deriving DecidableEq, Repr

/-- The `Cart` from `types.ts`. -/
structure Cart where
  id : String
  userId : String
  items : List CartItem
  totalAmount : ℚ
  updatedAt : String
deriving DecidableEq, Repr

/-- The `OrderItem` from `types.ts`: denormalized product snapshot, quantity and
unit price at order time. -/
structure OrderItem where
  id : String
  productId : String
  product : Product
  quantity : Int
  price : ℚ
deriving DecidableEq, Repr

/-- The `Address` from `types.ts`. -/
structure Address where
  street : String
  city : String
  state : String
  zipCode : String
  country : String
deriving DecidableEq, Repr

/-- The `Order` from `types.ts`. -/
structure Order where
  id : String
  userId : String
  items : List OrderItem
  totalAmount : ℚ
  status : OrderStatus
  shippingAddress : Address
  createdAt : String
  updatedAt : String
deriving DecidableEq, Repr

/-- The `LoginRequest` from `types.ts`. -/
structure LoginRequest where
  email : String
  password : String
deriving DecidableEq, Repr

/-- The `LoginResponse` from `types.ts`. -/
structure LoginResponse where
  user : User
  token : String
  refreshToken : String
deriving DecidableEq, Repr

/-- The `AddToCartRequest` from `types.ts`. -/
structure AddToCartRequest where
  productId : String
  quantity : Int
deriving DecidableEq, Repr

/-- The `CreateOrderRequest` from `types.ts`. -/
structure CreateOrderRequest where
  cartId : String
  shippingAddress : Address
deriving DecidableEq, Repr

/-- The `ApiResponse<T>` from `types.ts`, as fabricated by `createMockResponse`. -/
structure ApiResponse (α : Type) where
  data : α
  success : Bool
  message : Option String
deriving DecidableEq, Repr

/-- The optional filter argument of `getProducts`. -/
structure ProductFilter where
  category : Option ProductCategory := none
  search : Option String := none
deriving DecidableEq, Repr

/-- The module-level mutable state of `mock.ts`: the arrays `mockUsers`,
`mockProducts`, `mockCarts`, `mockOrders`, the `currentUser` pointer, and the
fresh-id counter standing in for `generateId`'s entropy. -/
structure MockState where
  users : List User
  products : List Product
  carts : List Cart
  orders : List Order
  currentUser : Option User
  nextId : Nat
deriving DecidableEq, Repr

/-- The `createMockResponse`: wraps data as `{ data, success: true,
message: 'Request successful' }`. -/
def createMockResponse {α : Type} (data : α) : ApiResponse α :=
  { data := data, success := true, message := some "Request successful" }

/-- The `generateId`, deterministically: the id minted when the counter is `n`. -/
def mkId (n : Nat) : String :=
  "mock-" ++ toString n

/-- JavaScript `String.prototype.toLowerCase`: lower-case every character. -/
def jsToLower (s : String) : String :=
  ⟨s.data.map Char.toLower⟩

/-- JavaScript `String.prototype.includes`: `sub` occurs as a contiguous
substring of `s` (every string includes the empty string). -/
def strIncludes (s sub : String) : Bool :=
  sub.isEmpty || (s.splitOn sub).length ≥ 2

/-- The `arr[i] = x` after `i = arr.findIndex(p)`: replace the first element
satisfying `p` by `x`; when no element matches (`findIndex` returns `-1`,
and `arr[-1] = x` does not change the array elements) the list is unchanged. -/
def setFirstP {α : Type} (p : α → Bool) (x : α) : List α → List α
  | [] => []
  | a :: l => if p a then x :: l else a :: setFirstP p x l

/-- The `arr.splice(i, 1)` after `i = arr.findIndex(p)` with `i >= 0`: remove the
first element satisfying `p` (unchanged when none matches). -/
def eraseFirstP {α : Type} (p : α → Bool) : List α → List α
  | [] => []
  | a :: l => if p a then l else a :: eraseFirstP p l

/-- The cart/order total recomputation:
`items.reduce((total, item) => total + item.product.price * item.quantity, 0)`. -/
def cartTotal (items : List CartItem) : ℚ :=
  items.foldl (fun total item => total + item.product.price * (item.quantity : ℚ)) 0

/-- The hard-coded plaintext password map `validPasswords` in `login`. -/
def validPasswords (email : String) : Option String :=
  if email = "admin@walgreens.com" then some "admin123"
  else if email = "customer@example.com" then some "customer123"
  else none

/-- The seeded `mockUsers` array. -/
def seedUsers : List User :=
  [ { id := "admin-1", email := "admin@walgreens.com", firstName := "Admin",
      lastName := "User", role := .admin,
      createdAt := "2024-01-01T00:00:00Z", updatedAt := "2024-01-01T00:00:00Z" },
    { id := "customer-1", email := "customer@example.com", firstName := "John",
      lastName := "Doe", role := .customer,
      createdAt := "2024-01-01T00:00:00Z", updatedAt := "2024-01-01T00:00:00Z" } ]

/-- The seeded `mockProducts` array. -/
def seedProducts : List Product :=
  [ { id := "prod-1", name := "Acetaminophen 500mg",
      description := "Pain reliever and fever reducer", price := 12.99,
      category := .pharmacy, imageUrl := some "/images/acetaminophen.jpg",
      inStock := true, stockQuantity := 100,
      createdAt := "2024-01-01T00:00:00Z", updatedAt := "2024-01-01T00:00:00Z" },
    { id := "prod-2", name := "Vitamin D3 2000 IU",
      description := "Supports bone and immune health", price := 15.99,
      category := .health, imageUrl := some "/images/vitamin-d3.jpg",
      inStock := true, stockQuantity := 50,
      createdAt := "2024-01-01T00:00:00Z", updatedAt := "2024-01-01T00:00:00Z" },
    { id := "prod-3", name := "Moisturizing Face Cream",
      description := "Daily hydrating face cream for all skin types", price := 24.99,
      category := .personalCare, imageUrl := some "/images/face-cream.jpg",
      inStock := true, stockQuantity := 25,
      createdAt := "2024-01-01T00:00:00Z", updatedAt := "2024-01-01T00:00:00Z" } ]

/-- The module-load state: seeded users and products, empty carts and orders,
no current user. -/
def initialState : MockState :=
  { users := seedUsers, products := seedProducts, carts := [], orders := [],
    currentUser := none, nextId := 0 }

/-- The result of a mock API call: the response or the thrown error message,
together with the shared state after the call. -/
abbrev MockResult (α : Type) := Except String (ApiResponse α) × MockState

/-- The `mockAuthApi.login`. -/
def login (st : MockState) (credentials : LoginRequest) : MockResult LoginResponse :=
  match st.users.find? (fun u => u.email == credentials.email) with
  | none => (.error "User not found", st)
  | some user =>
    if validPasswords credentials.email ≠ some credentials.password then
      (.error "Invalid credentials", st)
    else
      (.ok (createMockResponse
        { user := user,
          token := "mock-token-" ++ user.id,
          refreshToken := "mock-refresh-" ++ user.id }),
       { st with currentUser := some user })

/-- The `mockAuthApi.logout`. -/
def logout (st : MockState) : MockResult Unit :=
  (.ok (createMockResponse ()), { st with currentUser := none })

/-- The `mockAuthApi.getCurrentUser`. -/
def getCurrentUser (st : MockState) : MockResult User :=
  match st.currentUser with
  | none => (.error "No authenticated user", st)
  | some user => (.ok (createMockResponse user), st)

/-- The `mockProductsApi.getProducts`: optional exact-category filter, then
optional case-insensitive substring filter on name/description.  The guards
are JavaScript truthiness tests, so an empty search string applies no
filter. -/
def getProducts (st : MockState) (params : Option ProductFilter) :
    MockResult (List Product) :=
  let filteredProducts := st.products
  let filteredProducts :=
    match params with
    | some ps =>
      match ps.category with
      | some c => filteredProducts.filter (fun p => p.category == c)
      | none => filteredProducts
    | none => filteredProducts
  let filteredProducts :=
    match params with
    | some ps =>
      match ps.search with
      | some s =>
        if s.isEmpty then
          filteredProducts
        else
          let searchLower := jsToLower s
          filteredProducts.filter (fun p =>
            strIncludes (jsToLower p.name) searchLower ||
            strIncludes (jsToLower p.description) searchLower)
      | none => filteredProducts
    | none => filteredProducts
  (.ok (createMockResponse filteredProducts), st)

/-- The `mockProductsApi.getProduct`. -/
def getProduct (st : MockState) (id : String) : MockResult Product :=
  match st.products.find? (fun p => p.id == id) with
  | none => (.error "Product not found", st)
  | some product => (.ok (createMockResponse product), st)

/-- The `mockProductsApi.createProduct` (admin only). -/
def createProduct (st : MockState) (productData : ProductRequest) (now : String) :
    MockResult Product :=
  match st.currentUser with
  | none => (.error "Unauthorized", st)
  | some user =>
    if user.role ≠ .admin then
      (.error "Unauthorized", st)
    else
      let newProduct : Product :=
        { id := mkId st.nextId,
          name := productData.name,
          description := productData.description,
          price := productData.price,
          category := productData.category,
          imageUrl := productData.imageUrl,
          inStock := productData.stockQuantity > 0,
          stockQuantity := productData.stockQuantity,
          createdAt := now,
          updatedAt := now }
      (.ok (createMockResponse newProduct),
       { st with products := st.products ++ [newProduct], nextId := st.nextId + 1 })

/-- The `mockProductsApi.updateProduct` (admin only).  The `inStock` update is
guarded by the truthiness of `productData.stockQuantity`: the flag is
recomputed only when the field is present and nonzero, otherwise the stored
flag is kept. -/
def updateProduct (st : MockState) (id : String) (productData : ProductUpdate)
    (now : String) : MockResult Product :=
  match st.currentUser with
  | none => (.error "Unauthorized", st)
  | some user =>
    if user.role ≠ .admin then
      (.error "Unauthorized", st)
    else
      match st.products.find? (fun p => p.id == id) with
      | none => (.error "Product not found", st)
      | some old =>
        let updatedProduct : Product :=
          { old with
            name := productData.name.getD old.name,
            description := productData.description.getD old.description,
            price := productData.price.getD old.price,
            category := productData.category.getD old.category,
            imageUrl :=
              match productData.imageUrl with
              | some u => some u
              | none => old.imageUrl,
            stockQuantity := productData.stockQuantity.getD old.stockQuantity,
            inStock :=
              match productData.stockQuantity with
              | some q => if q ≠ 0 then decide (q > 0) else old.inStock
              | none => old.inStock,
            updatedAt := now }
        (.ok (createMockResponse updatedProduct),
         { st with products := setFirstP (fun p => p.id == id) updatedProduct st.products })

/-- The `mockProductsApi.deleteProduct` (admin only). -/
def deleteProduct (st : MockState) (id : String) : MockResult Unit :=
  match st.currentUser with
  | none => (.error "Unauthorized", st)
  | some user =>
    if user.role ≠ .admin then
      (.error "Unauthorized", st)
    else
      match st.products.find? (fun p => p.id == id) with
      | none => (.error "Product not found", st)
      | some _ =>
        (.ok (createMockResponse ()),
         { st with products := eraseFirstP (fun p => p.id == id) st.products })

/-- The `mockCartApi.getCart`. -/
def getCart (st : MockState) : MockResult (Option Cart) :=
  match st.currentUser with
  | none => (.error "User not authenticated", st)
  | some user =>
    (.ok (createMockResponse (st.carts.find? (fun c => c.userId == user.id))), st)

/-- The cart lazily created inside `addToCart` when the current user has no
cart yet: empty item list and a zero total. -/
def newEmptyCart (cid : String) (uid : String) (now : String) : Cart :=
  { id := cid, userId := uid, items := [], totalAmount := 0, updatedAt := now }

/-- The merge-on-add update inside `addToCart`:
`updatedItems[existingItemIndex] = { ...item, quantity: item.quantity + q }`
at the first index whose line matches the product id. -/
def bumpFirstItem (pid : String) (q : Int) : List CartItem → List CartItem
  | [] => []
  | item :: rest =>
    if item.productId == pid then
      { item with quantity := item.quantity + q } :: rest
    else
      item :: bumpFirstItem pid q rest

/-- The `mockCartApi.addToCart`: resolve the product, lazily create the cart,
merge the quantity into an existing line or append a new line, recompute the
total, and write the cart back at the first index matching its id. -/
def addToCart (st : MockState) (request : AddToCartRequest) (now : String) :
    MockResult Cart :=
  match st.currentUser with
  | none => (.error "User not authenticated", st)
  | some user =>
    match st.products.find? (fun p => p.id == request.productId) with
    | none => (.error "Product not found", st)
    | some product =>
      let found := st.carts.find? (fun c => c.userId == user.id)
      let (cart0, carts0, n0) :=
        match found with
        | none =>
          let c := newEmptyCart (mkId st.nextId) user.id now
          (c, st.carts ++ [c], st.nextId + 1)
        | some c => (c, st.carts, st.nextId)
      let (cart1, n1) :=
        if cart0.items.any (fun item => item.productId == request.productId) then
          ({ cart0 with items := bumpFirstItem request.productId request.quantity cart0.items },
           n0)
        else
          let newItem : CartItem :=
            { id := mkId n0, productId := request.productId, product := product,
              quantity := request.quantity, addedAt := now }
          ({ cart0 with items := cart0.items ++ [newItem] }, n0 + 1)
      let cart2 := { cart1 with totalAmount := cartTotal cart1.items, updatedAt := now }
      (.ok (createMockResponse cart2),
       { st with carts := setFirstP (fun c => c.id == cart2.id) cart2 carts0,
                 nextId := n1 })

/-- The `mockCartApi.removeFromCart`: filter out the matching line, recompute the
total, and write the cart back at the first index matching its id. -/
def removeFromCart (st : MockState) (itemId : String) (now : String) :
    MockResult Cart :=
  match st.currentUser with
  | none => (.error "User not authenticated", st)
  | some user =>
    match st.carts.find? (fun c => c.userId == user.id) with
    | none => (.error "Cart not found", st)
    | some cart =>
      let newItems := cart.items.filter (fun item => item.id != itemId)
      let updatedCart :=
        { cart with items := newItems, totalAmount := cartTotal newItems,
                    updatedAt := now }
      (.ok (createMockResponse updatedCart),
       { st with carts := setFirstP (fun c => c.id == cart.id) updatedCart st.carts })

/-- The order-item snapshots built by `createOrder`'s `cart.items.map`, one
fresh id per line starting at counter value `n`. -/
def mkOrderItems (n : Nat) : List CartItem → List OrderItem
  | [] => []
  | cartItem :: rest =>
    { id := mkId n, productId := cartItem.productId, product := cartItem.product,
      quantity := cartItem.quantity, price := cartItem.product.price } ::
    mkOrderItems (n + 1) rest

/-- The `mockOrdersApi.createOrder`: snapshot the cart into a pending order,
append it to the order list, then remove the source cart. -/
def createOrder (st : MockState) (request : CreateOrderRequest) (now : String) :
    MockResult Order :=
  match st.currentUser with
  | none => (.error "User not authenticated", st)
  | some user =>
    match st.carts.find? (fun c => c.id == request.cartId) with
    | none => (.error "Cart not found or empty", st)
    | some cart =>
      if cart.items.length = 0 then
        (.error "Cart not found or empty", st)
      else
        let order : Order :=
          { id := mkId st.nextId,
            userId := user.id,
            items := mkOrderItems (st.nextId + 1) cart.items,
            totalAmount := cart.totalAmount,
            status := .pending,
            shippingAddress := request.shippingAddress,
            createdAt := now,
            updatedAt := now }
        (.ok (createMockResponse order),
         { st with orders := st.orders ++ [order],
                   carts := eraseFirstP (fun c => c.id == cart.id) st.carts,
                   nextId := st.nextId + 1 + cart.items.length })

/-- The `mockOrdersApi.getOrders`. -/
def getOrders (st : MockState) : MockResult (List Order) :=
  match st.currentUser with
  | none => (.error "User not authenticated", st)
  | some user =>
    (.ok (createMockResponse (st.orders.filter (fun o => o.userId == user.id))), st)

/-- The `mockOrdersApi.getAllOrders` (admin only). -/
def getAllOrders (st : MockState) : MockResult (List Order) :=
  match st.currentUser with
  | none => (.error "Unauthorized", st)
  | some user =>
    if user.role ≠ .admin then
      (.error "Unauthorized", st)
    else
      (.ok (createMockResponse st.orders), st)

/-- The `mockOrdersApi.updateOrderStatus` (admin only): direct status overwrite at
the first index matching the order id, with no transition validation. -/
def updateOrderStatus (st : MockState) (orderId : String) (status : OrderStatus)
    (now : String) : MockResult Order :=
  match st.currentUser with
  | none => (.error "Unauthorized", st)
  | some user =>
    if user.role ≠ .admin then
      (.error "Unauthorized", st)
    else
      match st.orders.find? (fun o => o.id == orderId) with
      | none => (.error "Order not found", st)
      | some old =>
        let updatedOrder := { old with status := status, updatedAt := now }
        (.ok (createMockResponse updatedOrder),
         { st with orders := setFirstP (fun o => o.id == orderId) updatedOrder st.orders })

/-- A single mock API call with its arguments, for stating reachability of
states through the public API surface. -/
inductive MockOp where
  | login (credentials : LoginRequest)
  | logout
  | getCurrentUser
  | getProducts (params : Option ProductFilter)
  | getProduct (id : String)
  | createProduct (productData : ProductRequest) (now : String)
  | updateProduct (id : String) (productData : ProductUpdate) (now : String)
  | deleteProduct (id : String)
  | getCart
  | addToCart (request : AddToCartRequest) (now : String)
  | removeFromCart (itemId : String) (now : String)
  | createOrder (request : CreateOrderRequest) (now : String)
  | getOrders
  | getAllOrders
  | updateOrderStatus (orderId : String) (status : OrderStatus) (now : String)

/-- The state after running one mock API call (whether it succeeded or
threw). -/
def applyOp (op : MockOp) (st : MockState) : MockState :=
  match op with
  | .login credentials => (login st credentials).2
  | .logout => (logout st).2
  | .getCurrentUser => (getCurrentUser st).2
  | .getProducts params => (getProducts st params).2
  | .getProduct id => (getProduct st id).2
  | .createProduct productData now => (createProduct st productData now).2
  | .updateProduct id productData now => (updateProduct st id productData now).2
  | .deleteProduct id => (deleteProduct st id).2
  | .getCart => (getCart st).2
  | .addToCart request now => (addToCart st request now).2
  | .removeFromCart itemId now => (removeFromCart st itemId now).2
  | .createOrder request now => (createOrder st request now).2
  | .getOrders => (getOrders st).2
  | .getAllOrders => (getAllOrders st).2
  | .updateOrderStatus orderId status now => (updateOrderStatus st orderId status now).2

/-- States reachable from module load through the public mock API. -/
inductive Reachable : MockState → Prop
  | init : Reachable initialState
  | step (op : MockOp) {st : MockState} : Reachable st → Reachable (applyOp op st)

/-- The cart-total invariant attempted by the mock layer: the stored total is
the sum of `price * quantity` over the cart's lines. -/
def CartInv (c : Cart) : Prop :=
  c.totalAmount = cartTotal c.items

/-- Every cart in the store satisfies the cart-total invariant. -/
def CartsInv (st : MockState) : Prop :=
  ∀ c ∈ st.carts, CartInv c

/-- The seeded admin user (first entry of `mockUsers`), for concrete
instantiations. -/
def adminUser : User :=
  { id := "admin-1", email := "admin@walgreens.com", firstName := "Admin",
    lastName := "User", role := .admin,
    createdAt := "2024-01-01T00:00:00Z", updatedAt := "2024-01-01T00:00:00Z" }

/-- The seeded customer user (second entry of `mockUsers`), for concrete
instantiations. -/
def customerUser : User :=
  { id := "customer-1", email := "customer@example.com", firstName := "John",
    lastName := "Doe", role := .customer,
    createdAt := "2024-01-01T00:00:00Z", updatedAt := "2024-01-01T00:00:00Z" }

/-- A concrete shipping address, for concrete instantiations. -/
def sampleAddress : Address :=
  { street := "100 Main St", city := "Chicago", state := "IL",
    zipCode := "60601", country := "US" }

/-- A concrete already-delivered order, for concrete instantiations. -/
def deliveredOrder : Order :=
  { id := "order-1", userId := "customer-1", items := [], totalAmount := 0,
    status := .delivered, shippingAddress := sampleAddress,
    createdAt := "t0", updatedAt := "t0" }

/-- A state with a signed-in customer and one delivered order. -/
def stCustomerWithOrder : MockState :=
  { initialState with currentUser := some customerUser, orders := [deliveredOrder] }

/-- A state with a signed-in admin and one delivered order. -/
def stAdminWithOrder : MockState :=
  { initialState with currentUser := some adminUser, orders := [deliveredOrder] }

/-- A state with a signed-in admin and otherwise the module-load data. -/
def stAdmin : MockState :=
  { initialState with currentUser := some adminUser }

/-- A one-line cart for the seeded customer, holding quantity 2 of the first
seeded product, with the recomputed total, for concrete instantiations. -/
def sampleCartItem : CartItem :=
  { id := "item-1", productId := "prod-1",
    product :=
      { id := "prod-1", name := "Acetaminophen 500mg",
        description := "Pain reliever and fever reducer", price := 12.99,
        category := .pharmacy, imageUrl := some "/images/acetaminophen.jpg",
        inStock := true, stockQuantity := 100,
        createdAt := "2024-01-01T00:00:00Z", updatedAt := "2024-01-01T00:00:00Z" },
    quantity := 2, addedAt := "t0" }

/-- A second line for the sample cart: one unit of a 5.00 product, matching
the worked example in the specification. -/
def sampleCartItemB : CartItem :=
  { id := "item-2", productId := "prod-b",
    product :=
      { id := "prod-b", name := "Sample Product B",
        description := "Five dollar product", price := 5.00,
        category := .health, imageUrl := none,
        inStock := true, stockQuantity := 10,
        createdAt := "2024-01-01T00:00:00Z", updatedAt := "2024-01-01T00:00:00Z" },
    quantity := 1, addedAt := "t0" }

/-- The two-line cart `[(productA, qty 2, price 12.99), (productB, qty 1,
price 5.00)]` from the specification's worked example. -/
def sampleCart : Cart :=
  { id := "cart-1", userId := "customer-1",
    items := [sampleCartItem, sampleCartItemB],
    totalAmount := cartTotal [sampleCartItem, sampleCartItemB], updatedAt := "t0" }

/-- A state with a signed-in customer owning the two-line sample cart. -/
def stCustomerWithCart : MockState :=
  { initialState with currentUser := some customerUser, carts := [sampleCart] }

/-- The first seeded product (`prod-1`), for concrete instantiations. -/
def seedProductA : Product :=
  { id := "prod-1", name := "Acetaminophen 500mg",
    description := "Pain reliever and fever reducer", price := 12.99,
    category := .pharmacy, imageUrl := some "/images/acetaminophen.jpg",
    inStock := true, stockQuantity := 100,
    createdAt := "2024-01-01T00:00:00Z", updatedAt := "2024-01-01T00:00:00Z" }

/-- A state with a signed-in customer and no carts at all. -/
def stCustomerNoCart : MockState :=
  { initialState with currentUser := some customerUser }

/-- Replacing the first `p`-match can only introduce `x`; every other element
was already in the list. -/
theorem mem_setFirstP {α : Type} {p : α → Bool} {x y : α} {l : List α}
    (h : y ∈ setFirstP p x l) : y = x ∨ y ∈ l := by
  induction l with
  | nil => simp [setFirstP] at h
  | cons a t ih =>
    rw [setFirstP] at h
    by_cases hpa : p a = true
    · rw [if_pos hpa] at h
      rcases List.mem_cons.mp h with h | h
      · exact .inl h
      · exact .inr (List.mem_cons_of_mem _ h)
    · rw [if_neg hpa] at h
      rcases List.mem_cons.mp h with h | h
      · exact .inr (h ▸ List.mem_cons_self a t)
      · rcases ih h with h | h
        · exact .inl h
        · exact .inr (List.mem_cons_of_mem _ h)

/-- Removing the first `p`-match only removes elements. -/
theorem mem_eraseFirstP {α : Type} {p : α → Bool} {y : α} {l : List α}
    (h : y ∈ eraseFirstP p l) : y ∈ l := by
  induction l with
  | nil => simp [eraseFirstP] at h
  | cons a t ih =>
    rw [eraseFirstP] at h
    by_cases hpa : p a = true
    · rw [if_pos hpa] at h
      exact List.mem_cons_of_mem _ h
    · rw [if_neg hpa] at h
      rcases List.mem_cons.mp h with h | h
      · exact h ▸ List.mem_cons_self a t
      · exact List.mem_cons_of_mem _ (ih h)

/-- If the first `q`-match of `l` is `c` and `c` also matches `p`, then after
replacing the first `p`-match by a `q`-matching `x`, the first `q`-match is
`x`. -/
theorem find?_setFirstP {α : Type} {p q : α → Bool} {x c : α} {l : List α}
    (hfind : l.find? q = some c) (hpc : p c = true) (hqx : q x = true) :
    (setFirstP p x l).find? q = some x := by
  induction l with
  | nil => simp at hfind
  | cons a t ih =>
    by_cases hqa : q a = true
    · rw [List.find?_cons_of_pos _ hqa] at hfind
      have hac : a = c := by injection hfind
      rw [setFirstP, if_pos (hac ▸ hpc)]
      exact List.find?_cons_of_pos _ hqx
    · rw [List.find?_cons_of_neg _ hqa] at hfind
      rw [setFirstP]
      by_cases hpa : p a = true
      · rw [if_pos hpa]
        exact List.find?_cons_of_pos _ hqx
      · rw [if_neg hpa, List.find?_cons_of_neg _ hqa]
        exact ih hfind

/-- When at most one element matches `p`, removing the first match leaves no
match at all. -/
theorem find?_eraseFirstP {α : Type} {p : α → Bool} {l : List α}
    (h : l.countP p ≤ 1) : (eraseFirstP p l).find? p = none := by
  induction l with
  | nil => rfl
  | cons a t ih =>
    rw [List.countP_cons] at h
    rw [eraseFirstP]
    by_cases hpa : p a = true
    · rw [if_pos hpa]
      rw [if_pos hpa] at h
      have ht : t.countP p = 0 := by omega
      exact List.find?_eq_none.mpr fun x hx hpx =>
        (List.countP_eq_zero.mp ht x hx) hpx
    · rw [if_neg hpa, List.find?_cons_of_neg _ hpa]
      rw [if_neg hpa] at h
      exact ih (by omega)

/-- Order-item snapshots carry over productId, product, quantity, and the
line's product price, in order. -/
theorem mkOrderItems_map (n : Nat) (items : List CartItem) :
    (mkOrderItems n items).map (fun oi => (oi.productId, oi.product, oi.quantity, oi.price)) =
      items.map (fun ci => (ci.productId, ci.product, ci.quantity, ci.product.price)) := by
  induction items generalizing n with
  | nil => rfl
  | cons a t ih => simp [mkOrderItems, ih]

/-- Merging into a one-line cart whose line matches the product id just bumps
that line's quantity. -/
theorem bumpFirstItem_single (pid : String) (q : Int) (item : CartItem)
    (h : item.productId = pid) :
    bumpFirstItem pid q [item] = [{ item with quantity := item.quantity + q }] := by
  simp [bumpFirstItem, h]

/-- Claim C5: whenever the current user is absent or not an admin,
`updateOrderStatus` throws `'Unauthorized'` and leaves the whole state
(in particular the order list and every order's status) unchanged. -/
theorem updateOrderStatus_nonadmin_fails (st : MockState) (orderId : String)
    (status : OrderStatus) (now : String)
    (h : st.currentUser = none ∨ ∃ u, st.currentUser = some u ∧ u.role ≠ .admin) :
    updateOrderStatus st orderId status now = (.error "Unauthorized", st) := by
  unfold updateOrderStatus
  rcases h with h | ⟨u, hu, hrole⟩
  · rw [h]
  · rw [hu]
    exact if_pos hrole

/-- Witness for C5 at a concrete non-admin state. -/
theorem updateOrderStatus_nonadmin_fails_witness :
    updateOrderStatus stCustomerWithOrder "order-1" .pending "t1" =
      (.error "Unauthorized", stCustomerWithOrder) :=
  updateOrderStatus_nonadmin_fails stCustomerWithOrder "order-1" .pending "t1"
    (.inr ⟨customerUser, rfl, by decide⟩)

/-- Claim C9: when the current user is an admin and the order exists,
`updateOrderStatus` succeeds for every target status (no transition rules):
the response carries the order with the new status, and the stored order list
resolves the order id to that updated order. -/
theorem updateOrderStatus_admin_no_transition_rules (st : MockState)
    (orderId : String) (status : OrderStatus) (now : String) (u : User) (old : Order)
    (hu : st.currentUser = some u) (hadmin : u.role = .admin)
    (hord : st.orders.find? (fun o => o.id == orderId) = some old) :
    (updateOrderStatus st orderId status now).1 =
      .ok (createMockResponse { old with status := status, updatedAt := now }) ∧
    (updateOrderStatus st orderId status now).2.orders.find? (fun o => o.id == orderId) =
      some { old with status := status, updatedAt := now } := by
  have hqo : (old.id == orderId) = true :=
    List.find?_some (p := fun o : Order => o.id == orderId) hord
  have hcond : ¬ (u.role ≠ UserRole.admin) := by simp [hadmin]
  unfold updateOrderStatus
  simp only [hu]
  rw [if_neg hcond, hord]
  exact ⟨rfl, find?_setFirstP hord hqo hqo⟩

/-- Witness for C9: an admin resets a delivered order back to pending. -/
theorem updateOrderStatus_admin_no_transition_rules_witness :
    (updateOrderStatus stAdminWithOrder "order-1" .pending "t1").1 =
      .ok (createMockResponse { deliveredOrder with status := .pending, updatedAt := "t1" }) ∧
    (updateOrderStatus stAdminWithOrder "order-1" .pending "t1").2.orders.find?
        (fun o => o.id == "order-1") =
      some { deliveredOrder with status := .pending, updatedAt := "t1" } :=
  updateOrderStatus_admin_no_transition_rules stAdminWithOrder "order-1" .pending "t1"
    adminUser deliveredOrder rfl rfl rfl

/-- Claim C4: against the seeded user list,
`login('admin@walgreens.com','admin123')` succeeds, returns a user with role
`admin` and sets the current-user pointer to that user; and any call whose
password does not match the hard-coded password map throws an error and
leaves the state (in particular the current-user pointer) exactly as it
was. -/
theorem login_admin_ok_and_wrong_password_rejected (st : MockState) :
    (st.users = seedUsers →
      ∃ r : ApiResponse LoginResponse,
        login st { email := "admin@walgreens.com", password := "admin123" } =
          (.ok r, { st with currentUser := some r.data.user }) ∧
        r.data.user.role = .admin) ∧
    (∀ credentials : LoginRequest,
      validPasswords credentials.email ≠ some credentials.password →
      ∃ e, login st credentials = (.error e, st)) := by
  constructor
  · intro husers
    refine ⟨createMockResponse
      { user := adminUser, token := "mock-token-admin-1",
        refreshToken := "mock-refresh-admin-1" }, ?_, rfl⟩
    unfold login
    rw [husers]
    rfl
  · intro credentials hbad
    unfold login
    cases hfind : st.users.find? (fun u => u.email == credentials.email) with
    | none => exact ⟨"User not found", rfl⟩
    | some u =>
      exact ⟨"Invalid credentials", if_pos hbad⟩

/-- Witness for C4 at the module-load state: the admin login succeeds with
role `admin`, and a wrong-password admin login fails leaving the state
untouched. -/
theorem login_admin_ok_and_wrong_password_rejected_witness :
    (∃ r : ApiResponse LoginResponse,
      login initialState { email := "admin@walgreens.com", password := "admin123" } =
        (.ok r, { initialState with currentUser := some r.data.user }) ∧
      r.data.user.role = .admin) ∧
    (∃ e, login initialState { email := "admin@walgreens.com", password := "wrong" } =
      (.error e, initialState)) :=
  ⟨(login_admin_ok_and_wrong_password_rejected initialState).1 rfl,
   (login_admin_ok_and_wrong_password_rejected initialState).2
     { email := "admin@walgreens.com", password := "wrong" } (by decide)⟩

/-- Counterexample to claim C8 as stated: the two login failure causes are
distinguishable — an unknown email produces `'User not found'` while a wrong
password for a known email produces `'Invalid credentials'`, and the two
messages differ. -/
theorem login_failure_messages_differ :
    (login initialState { email := "ghost@example.com", password := "admin123" }).1 =
      .error "User not found" ∧
    (login initialState { email := "admin@walgreens.com", password := "wrong" }).1 =
      .error "Invalid credentials" ∧
    ("User not found" : String) ≠ "Invalid credentials" :=
  ⟨rfl, rfl, by decide⟩

/-- Amended claim C8: `login` fails whenever the looked-up user is absent
(error `'User not found'`) or the supplied password does not match the
hard-coded password map (error `'Invalid credentials'`); both failures leave
the state unchanged, but the two causes carry different messages. -/
theorem login_failure_cases (st : MockState) (credentials : LoginRequest) :
    (st.users.find? (fun u => u.email == credentials.email) = none →
      login st credentials = (.error "User not found", st)) ∧
    (∀ u, st.users.find? (fun u => u.email == credentials.email) = some u →
      validPasswords credentials.email ≠ some credentials.password →
      login st credentials = (.error "Invalid credentials", st)) := by
  constructor
  · intro h
    unfold login
    rw [h]
  · intro u h hbad
    unfold login
    rw [h]
    exact if_pos hbad

/-- Witness for the amended C8 at concrete inputs for both failure causes. -/
theorem login_failure_cases_witness :
    login initialState { email := "ghost@example.com", password := "x" } =
      (.error "User not found", initialState) ∧
    login initialState { email := "customer@example.com", password := "nope" } =
      (.error "Invalid credentials", initialState) :=
  ⟨(login_failure_cases initialState
      { email := "ghost@example.com", password := "x" }).1 rfl,
   (login_failure_cases initialState
      { email := "customer@example.com", password := "nope" }).2
     customerUser rfl (by decide)⟩

/-- Every string includes the empty string (as JavaScript's `includes`
does). -/
theorem strIncludes_empty (s : String) : strIncludes s "" = true := rfl

/-- Claim C7: `getProducts` with a category filter returns exactly the
products of that category; with no filter it returns all products; with a
search string it returns exactly the products whose name or description
contains the string case-insensitively (for the empty search string the
guard skips the filter, which coincides with "every product contains the
empty string"); and it never throws — a no-match filter yields an empty
list inside a successful response. -/
theorem getProducts_filtering (st : MockState) :
    (∀ C : ProductCategory,
      getProducts st (some { category := some C, search := none }) =
        (.ok (createMockResponse (st.products.filter (fun p => p.category == C))), st)) ∧
    (getProducts st none = (.ok (createMockResponse st.products), st)) ∧
    (∀ S : String,
      getProducts st (some { category := none, search := some S }) =
        (.ok (createMockResponse (st.products.filter (fun p =>
          strIncludes (jsToLower p.name) (jsToLower S) ||
          strIncludes (jsToLower p.description) (jsToLower S)))), st)) ∧
    (∀ params, ∃ r, (getProducts st params).1 = .ok r) := by
  refine ⟨fun C => rfl, rfl, fun S => ?_, fun params => ⟨_, rfl⟩⟩
  by_cases hS : S.isEmpty = true
  · have hSe : S = "" := (String.isEmpty_iff S).mp hS
    subst hSe
    have hall : st.products.filter (fun p =>
        strIncludes (jsToLower p.name) (jsToLower "") ||
        strIncludes (jsToLower p.description) (jsToLower "")) = st.products :=
      List.filter_eq_self.mpr fun a _ => rfl
    simp only [getProducts]
    rw [if_pos hS, hall]
  · simp only [getProducts]
    rw [if_neg hS]

/-- Glue: a call that either left the state unchanged or returned `ok` leaves
the state unchanged whenever it returns an error. -/
theorem err_unchanged_of_ok_or_unchanged {α : Type}
    {res : Except String (ApiResponse α) × MockState} {st : MockState}
    (h : res.2 = st ∨ ∃ r, res.1 = .ok r) :
    ∀ e, res.1 = .error e → res.2 = st := by
  intro e he
  rcases h with h | ⟨r, hr⟩
  · exact h
  · rw [hr] at he
    exact absurd he (by simp)

/-- The `login` either keeps the state or succeeds. -/
theorem login_ok_or_unchanged (st : MockState) (credentials : LoginRequest) :
    (login st credentials).2 = st ∨ ∃ r, (login st credentials).1 = .ok r := by
  unfold login
  split
  · exact .inl rfl
  · split
    · exact .inl rfl
    · exact .inr ⟨_, rfl⟩

/-- The `getCurrentUser` either keeps the state or succeeds (it never mutates). -/
theorem getCurrentUser_ok_or_unchanged (st : MockState) :
    (getCurrentUser st).2 = st ∨ ∃ r, (getCurrentUser st).1 = .ok r := by
  unfold getCurrentUser
  split
  · exact .inl rfl
  · exact .inl rfl

/-- The `getProduct` either keeps the state or succeeds. -/
theorem getProduct_ok_or_unchanged (st : MockState) (id : String) :
    (getProduct st id).2 = st ∨ ∃ r, (getProduct st id).1 = .ok r := by
  unfold getProduct
  split
  · exact .inl rfl
  · exact .inl rfl

/-- The `createProduct` either keeps the state or succeeds. -/
theorem createProduct_ok_or_unchanged (st : MockState) (productData : ProductRequest)
    (now : String) :
    (createProduct st productData now).2 = st ∨
      ∃ r, (createProduct st productData now).1 = .ok r := by
  unfold createProduct
  split
  · exact .inl rfl
  · split
    · exact .inl rfl
    · exact .inr ⟨_, rfl⟩

/-- The `updateProduct` either keeps the state or succeeds. -/
theorem updateProduct_ok_or_unchanged (st : MockState) (id : String)
    (productData : ProductUpdate) (now : String) :
    (updateProduct st id productData now).2 = st ∨
      ∃ r, (updateProduct st id productData now).1 = .ok r := by
  unfold updateProduct
  split
  · exact .inl rfl
  · split
    · exact .inl rfl
    · split
      · exact .inl rfl
      · exact .inr ⟨_, rfl⟩

/-- The `deleteProduct` either keeps the state or succeeds. -/
theorem deleteProduct_ok_or_unchanged (st : MockState) (id : String) :
    (deleteProduct st id).2 = st ∨ ∃ r, (deleteProduct st id).1 = .ok r := by
  unfold deleteProduct
  split
  · exact .inl rfl
  · split
    · exact .inl rfl
    · split
      · exact .inl rfl
      · exact .inr ⟨_, rfl⟩

/-- The `getCart` either keeps the state or succeeds. -/
theorem getCart_ok_or_unchanged (st : MockState) :
    (getCart st).2 = st ∨ ∃ r, (getCart st).1 = .ok r := by
  unfold getCart
  split
  · exact .inl rfl
  · exact .inl rfl

/-- The `addToCart` either keeps the state or succeeds. -/
theorem addToCart_ok_or_unchanged (st : MockState) (request : AddToCartRequest)
    (now : String) :
    (addToCart st request now).2 = st ∨ ∃ r, (addToCart st request now).1 = .ok r := by
  unfold addToCart
  split
  · exact .inl rfl
  · split
    · exact .inl rfl
    · right
      dsimp only
      split <;> split <;> exact ⟨_, rfl⟩

/-- The `removeFromCart` either keeps the state or succeeds. -/
theorem removeFromCart_ok_or_unchanged (st : MockState) (itemId : String)
    (now : String) :
    (removeFromCart st itemId now).2 = st ∨
      ∃ r, (removeFromCart st itemId now).1 = .ok r := by
  unfold removeFromCart
  split
  · exact .inl rfl
  · split
    · exact .inl rfl
    · exact .inr ⟨_, rfl⟩

/-- The `createOrder` either keeps the state or succeeds. -/
theorem createOrder_ok_or_unchanged (st : MockState) (request : CreateOrderRequest)
    (now : String) :
    (createOrder st request now).2 = st ∨
      ∃ r, (createOrder st request now).1 = .ok r := by
  unfold createOrder
  split
  · exact .inl rfl
  · split
    · exact .inl rfl
    · split
      · exact .inl rfl
      · exact .inr ⟨_, rfl⟩

/-- The `getOrders` either keeps the state or succeeds. -/
theorem getOrders_ok_or_unchanged (st : MockState) :
    (getOrders st).2 = st ∨ ∃ r, (getOrders st).1 = .ok r := by
  unfold getOrders
  split
  · exact .inl rfl
  · exact .inl rfl

/-- The `getAllOrders` either keeps the state or succeeds. -/
theorem getAllOrders_ok_or_unchanged (st : MockState) :
    (getAllOrders st).2 = st ∨ ∃ r, (getAllOrders st).1 = .ok r := by
  unfold getAllOrders
  split
  · exact .inl rfl
  · split
    · exact .inl rfl
    · exact .inl rfl

/-- The `updateOrderStatus` either keeps the state or succeeds. -/
theorem updateOrderStatus_ok_or_unchanged (st : MockState) (orderId : String)
    (status : OrderStatus) (now : String) :
    (updateOrderStatus st orderId status now).2 = st ∨
      ∃ r, (updateOrderStatus st orderId status now).1 = .ok r := by
  unfold updateOrderStatus
  split
  · exact .inl rfl
  · split
    · exact .inl rfl
    · split
      · exact .inl rfl
      · exact .inr ⟨_, rfl⟩

/-- Claim C6: every mock API operation is atomic on failure — whenever a call
returns an error, the entire shared state (users, products, carts, orders and
the current-user pointer) equals the state before the call.  In the source
every `throw` happens before any mutation, including both steps of the
order-creation path. -/
theorem mock_api_atomic_on_failure :
    (∀ st credentials e, (login st credentials).1 = .error e →
      (login st credentials).2 = st) ∧
    (∀ st e, (logout st).1 = .error e → (logout st).2 = st) ∧
    (∀ st e, (getCurrentUser st).1 = .error e → (getCurrentUser st).2 = st) ∧
    (∀ st params e, (getProducts st params).1 = .error e →
      (getProducts st params).2 = st) ∧
    (∀ st id e, (getProduct st id).1 = .error e → (getProduct st id).2 = st) ∧
    (∀ st d now e, (createProduct st d now).1 = .error e →
      (createProduct st d now).2 = st) ∧
    (∀ st id d now e, (updateProduct st id d now).1 = .error e →
      (updateProduct st id d now).2 = st) ∧
    (∀ st id e, (deleteProduct st id).1 = .error e → (deleteProduct st id).2 = st) ∧
    (∀ st e, (getCart st).1 = .error e → (getCart st).2 = st) ∧
    (∀ st request now e, (addToCart st request now).1 = .error e →
      (addToCart st request now).2 = st) ∧
    (∀ st itemId now e, (removeFromCart st itemId now).1 = .error e →
      (removeFromCart st itemId now).2 = st) ∧
    (∀ st request now e, (createOrder st request now).1 = .error e →
      (createOrder st request now).2 = st) ∧
    (∀ st e, (getOrders st).1 = .error e → (getOrders st).2 = st) ∧
    (∀ st e, (getAllOrders st).1 = .error e → (getAllOrders st).2 = st) ∧
    (∀ st orderId status now e, (updateOrderStatus st orderId status now).1 = .error e →
      (updateOrderStatus st orderId status now).2 = st) :=
  ⟨fun st c => err_unchanged_of_ok_or_unchanged (login_ok_or_unchanged st c),
   fun _ => err_unchanged_of_ok_or_unchanged (.inr ⟨_, rfl⟩),
   fun st => err_unchanged_of_ok_or_unchanged (getCurrentUser_ok_or_unchanged st),
   fun _ _ => err_unchanged_of_ok_or_unchanged (.inr ⟨_, rfl⟩),
   fun st id => err_unchanged_of_ok_or_unchanged (getProduct_ok_or_unchanged st id),
   fun st d now => err_unchanged_of_ok_or_unchanged (createProduct_ok_or_unchanged st d now),
   fun st id d now =>
     err_unchanged_of_ok_or_unchanged (updateProduct_ok_or_unchanged st id d now),
   fun st id => err_unchanged_of_ok_or_unchanged (deleteProduct_ok_or_unchanged st id),
   fun st => err_unchanged_of_ok_or_unchanged (getCart_ok_or_unchanged st),
   fun st r now => err_unchanged_of_ok_or_unchanged (addToCart_ok_or_unchanged st r now),
   fun st i now =>
     err_unchanged_of_ok_or_unchanged (removeFromCart_ok_or_unchanged st i now),
   fun st r now => err_unchanged_of_ok_or_unchanged (createOrder_ok_or_unchanged st r now),
   fun st => err_unchanged_of_ok_or_unchanged (getOrders_ok_or_unchanged st),
   fun st => err_unchanged_of_ok_or_unchanged (getAllOrders_ok_or_unchanged st),
   fun st oid s now =>
     err_unchanged_of_ok_or_unchanged (updateOrderStatus_ok_or_unchanged st oid s now)⟩

/-- Witness for C6 at concrete failing calls of four different operations. -/
theorem mock_api_atomic_on_failure_witness :
    (login initialState { email := "ghost@example.com", password := "x" }).2 =
      initialState ∧
    (addToCart initialState { productId := "prod-1", quantity := 1 } "t").2 =
      initialState ∧
    (createOrder stCustomerWithOrder
      { cartId := "nope", shippingAddress := sampleAddress } "t").2 =
      stCustomerWithOrder ∧
    (updateOrderStatus stCustomerWithOrder "order-1" .confirmed "t").2 =
      stCustomerWithOrder :=
  ⟨mock_api_atomic_on_failure.1 initialState
     { email := "ghost@example.com", password := "x" } "User not found" rfl,
   mock_api_atomic_on_failure.2.2.2.2.2.2.2.2.2.1 initialState
     { productId := "prod-1", quantity := 1 } "t" "User not authenticated" rfl,
   mock_api_atomic_on_failure.2.2.2.2.2.2.2.2.2.2.2.1 stCustomerWithOrder
     { cartId := "nope", shippingAddress := sampleAddress } "t"
     "Cart not found or empty" rfl,
   mock_api_atomic_on_failure.2.2.2.2.2.2.2.2.2.2.2.2.2.2 stCustomerWithOrder
     "order-1" .confirmed "t" "Unauthorized" rfl⟩

/-- Claim C10: for an admin, `updateProduct` with `stockQuantity = 0` stores
stock quantity 0 but keeps the previous `inStock` flag (the recomputation is
guarded by the truthiness of the field, and `0` is falsy); consequently a
product with `stockQuantity = 0` and `inStock = true` is reachable through
the public API. -/
theorem updateProduct_zero_stock_keeps_inStock :
    (∀ st id productData now u old,
      st.currentUser = some u → u.role = .admin →
      st.products.find? (fun p => p.id == id) = some old →
      productData.stockQuantity = some 0 →
      ∃ r, (updateProduct st id productData now).1 = .ok r ∧
        r.data.stockQuantity = 0 ∧
        r.data.inStock = old.inStock ∧
        (updateProduct st id productData now).2.products.find? (fun p => p.id == id) =
          some r.data) ∧
    (∃ st, Reachable st ∧ ∃ p ∈ st.products, p.stockQuantity = 0 ∧ p.inStock = true) := by
  constructor
  · intro st id productData now u old hu hadmin hfind hq
    have hqo : (old.id == id) = true :=
      List.find?_some (p := fun p : Product => p.id == id) hfind
    have hcond : ¬ (u.role ≠ UserRole.admin) := by simp [hadmin]
    unfold updateProduct
    simp only [hu]
    rw [if_neg hcond, hfind]
    refine ⟨_, rfl, ?_, ?_, ?_⟩
    · simp [createMockResponse, hq]
    · simp [createMockResponse, hq]
    · exact find?_setFirstP hfind hqo hqo
  · refine ⟨applyOp (.updateProduct "prod-1" { stockQuantity := some 0 } "t")
        (applyOp (.login { email := "admin@walgreens.com", password := "admin123" })
          initialState),
      Reachable.step _ (Reachable.step _ Reachable.init), ?_⟩
    decide

/-- Witness for C10's universally quantified part at a concrete admin state. -/
theorem updateProduct_zero_stock_keeps_inStock_witness :
    ∃ r, (updateProduct stAdmin "prod-1" { stockQuantity := some 0 } "t").1 = .ok r ∧
      r.data.stockQuantity = 0 ∧
      r.data.inStock = true ∧
      (updateProduct stAdmin "prod-1" { stockQuantity := some 0 } "t").2.products.find?
        (fun p => p.id == "prod-1") = some r.data := by
  obtain ⟨r, h1, h2, h3, h4⟩ :=
    updateProduct_zero_stock_keeps_inStock.1 stAdmin "prod-1"
      { stockQuantity := some 0 } "t" adminUser
      { id := "prod-1", name := "Acetaminophen 500mg",
        description := "Pain reliever and fever reducer", price := 12.99,
        category := .pharmacy, imageUrl := some "/images/acetaminophen.jpg",
        inStock := true, stockQuantity := 100,
        createdAt := "2024-01-01T00:00:00Z", updatedAt := "2024-01-01T00:00:00Z" }
      rfl rfl rfl rfl
  exact ⟨r, h1, h2, h3, h4⟩

/-- Claim C1: for an authenticated user and a resolvable, non-empty cart
(with an unduplicated id), `createOrder` succeeds with an order whose total
equals the cart's total, whose items copy every cart line with the line's
product price, whose status is `pending`; and afterwards no cart with the
source cart's id is resolvable. -/
theorem createOrder_snapshots_cart (st : MockState) (request : CreateOrderRequest)
    (now : String) (u : User) (cart : Cart)
    (hu : st.currentUser = some u)
    (hcart : st.carts.find? (fun c => c.id == request.cartId) = some cart)
    (hne : cart.items ≠ [])
    (huniq : st.carts.countP (fun c => c.id == cart.id) ≤ 1) :
    ∃ r, (createOrder st request now).1 = .ok r ∧
      r.data.totalAmount = cart.totalAmount ∧
      r.data.status = .pending ∧
      r.data.items.map (fun oi => (oi.productId, oi.product, oi.quantity, oi.price)) =
        cart.items.map (fun ci => (ci.productId, ci.product, ci.quantity, ci.product.price)) ∧
      (createOrder st request now).2.carts.find? (fun c => c.id == cart.id) = none := by
  have hlen : ¬ (cart.items.length = 0) := by
    simpa using hne
  unfold createOrder
  simp only [hu, hcart]
  rw [if_neg hlen]
  exact ⟨_, rfl, rfl, rfl, mkOrderItems_map _ _, find?_eraseFirstP huniq⟩

/-- Witness for C1: the specification's worked example — a cart with lines
`[(productA, qty 2, price 12.99), (productB, qty 1, price 5.00)]` yields a
pending order with total `30.98` and the cart id no longer resolves. -/
theorem createOrder_snapshots_cart_witness :
    (∃ r, (createOrder stCustomerWithCart
        { cartId := "cart-1", shippingAddress := sampleAddress } "t").1 = .ok r ∧
      r.data.totalAmount = sampleCart.totalAmount ∧
      r.data.status = .pending ∧
      r.data.items.map (fun oi => (oi.productId, oi.product, oi.quantity, oi.price)) =
        sampleCart.items.map
          (fun ci => (ci.productId, ci.product, ci.quantity, ci.product.price)) ∧
      (createOrder stCustomerWithCart
        { cartId := "cart-1", shippingAddress := sampleAddress } "t").2.carts.find?
        (fun c => c.id == sampleCart.id) = none) ∧
    sampleCart.totalAmount = (30.98 : ℚ) :=
  ⟨createOrder_snapshots_cart stCustomerWithCart
      { cartId := "cart-1", shippingAddress := sampleAddress } "t"
      customerUser sampleCart rfl rfl (by decide) (by decide),
   by simp only [sampleCart, cartTotal, sampleCartItem, sampleCartItemB,
        List.foldl_cons, List.foldl_nil]; norm_num⟩

/-- The `login` does not touch the cart array. -/
theorem carts_login (st : MockState) (credentials : LoginRequest) :
    (login st credentials).2.carts = st.carts := by
  unfold login
  split
  · rfl
  · split
    · rfl
    · rfl

/-- The `logout` does not touch the cart array. -/
theorem carts_logout (st : MockState) : (logout st).2.carts = st.carts := rfl

/-- The `getCurrentUser` does not touch the cart array. -/
theorem carts_getCurrentUser (st : MockState) :
    (getCurrentUser st).2.carts = st.carts := by
  unfold getCurrentUser
  split
  · rfl
  · rfl

/-- The `getProducts` does not touch the cart array. -/
theorem carts_getProducts (st : MockState) (params : Option ProductFilter) :
    (getProducts st params).2.carts = st.carts := rfl

/-- The `getProduct` does not touch the cart array. -/
theorem carts_getProduct (st : MockState) (id : String) :
    (getProduct st id).2.carts = st.carts := by
  unfold getProduct
  split
  · rfl
  · rfl

/-- The `createProduct` does not touch the cart array. -/
theorem carts_createProduct (st : MockState) (productData : ProductRequest)
    (now : String) : (createProduct st productData now).2.carts = st.carts := by
  unfold createProduct
  split
  · rfl
  · split
    · rfl
    · rfl

/-- The `updateProduct` does not touch the cart array. -/
theorem carts_updateProduct (st : MockState) (id : String)
    (productData : ProductUpdate) (now : String) :
    (updateProduct st id productData now).2.carts = st.carts := by
  unfold updateProduct
  split
  · rfl
  · split
    · rfl
    · split
      · rfl
      · rfl

/-- The `deleteProduct` does not touch the cart array. -/
theorem carts_deleteProduct (st : MockState) (id : String) :
    (deleteProduct st id).2.carts = st.carts := by
  unfold deleteProduct
  split
  · rfl
  · split
    · rfl
    · split
      · rfl
      · rfl

/-- The `getCart` does not touch the cart array. -/
theorem carts_getCart (st : MockState) : (getCart st).2.carts = st.carts := by
  unfold getCart
  split
  · rfl
  · rfl

/-- The `getOrders` does not touch the cart array. -/
theorem carts_getOrders (st : MockState) : (getOrders st).2.carts = st.carts := by
  unfold getOrders
  split
  · rfl
  · rfl

/-- The `getAllOrders` does not touch the cart array. -/
theorem carts_getAllOrders (st : MockState) :
    (getAllOrders st).2.carts = st.carts := by
  unfold getAllOrders
  split
  · rfl
  · split
    · rfl
    · rfl

/-- The `updateOrderStatus` does not touch the cart array. -/
theorem carts_updateOrderStatus (st : MockState) (orderId : String)
    (status : OrderStatus) (now : String) :
    (updateOrderStatus st orderId status now).2.carts = st.carts := by
  unfold updateOrderStatus
  split
  · rfl
  · split
    · rfl
    · split
      · rfl
      · rfl

/-- The `addToCart` preserves the cart-total invariant: the written-back cart has
a freshly recomputed total, and every other cart is untouched. -/
theorem CartsInv_addToCart (st : MockState) (request : AddToCartRequest)
    (now : String) (h : CartsInv st) : CartsInv (addToCart st request now).2 := by
  unfold addToCart
  split
  · exact h
  · split
    · exact h
    · dsimp only
      split <;> split <;>
      · intro c hc
        rcases mem_setFirstP hc with rfl | hc
        · exact rfl
        · first
          | exact h c hc
          | (rcases List.mem_append.mp hc with hc | hc
             · exact h c hc
             · rcases List.mem_singleton.mp hc with rfl
               exact rfl)

/-- The `removeFromCart` preserves the cart-total invariant. -/
theorem CartsInv_removeFromCart (st : MockState) (itemId : String)
    (now : String) (h : CartsInv st) : CartsInv (removeFromCart st itemId now).2 := by
  unfold removeFromCart
  split
  · exact h
  · split
    · exact h
    · intro c hc
      rcases mem_setFirstP hc with rfl | hc
      · exact rfl
      · exact h c hc

/-- The `createOrder` preserves the cart-total invariant (it only removes a
cart). -/
theorem CartsInv_createOrder (st : MockState) (request : CreateOrderRequest)
    (now : String) (h : CartsInv st) : CartsInv (createOrder st request now).2 := by
  unfold createOrder
  split
  · exact h
  · split
    · exact h
    · split
      · exact h
      · intro c hc
        exact h c (mem_eraseFirstP hc)

/-- Every mock API call preserves the cart-total invariant. -/
theorem CartsInv_applyOp (op : MockOp) (st : MockState) (h : CartsInv st) :
    CartsInv (applyOp op st) := by
  cases op with
  | login credentials =>
    intro c hc
    simp only [applyOp] at hc
    rw [carts_login] at hc
    exact h c hc
  | logout =>
    intro c hc
    simp only [applyOp] at hc
    rw [carts_logout] at hc
    exact h c hc
  | getCurrentUser =>
    intro c hc
    simp only [applyOp] at hc
    rw [carts_getCurrentUser] at hc
    exact h c hc
  | getProducts params =>
    intro c hc
    simp only [applyOp] at hc
    rw [carts_getProducts] at hc
    exact h c hc
  | getProduct id =>
    intro c hc
    simp only [applyOp] at hc
    rw [carts_getProduct] at hc
    exact h c hc
  | createProduct productData now =>
    intro c hc
    simp only [applyOp] at hc
    rw [carts_createProduct] at hc
    exact h c hc
  | updateProduct id productData now =>
    intro c hc
    simp only [applyOp] at hc
    rw [carts_updateProduct] at hc
    exact h c hc
  | deleteProduct id =>
    intro c hc
    simp only [applyOp] at hc
    rw [carts_deleteProduct] at hc
    exact h c hc
  | getCart =>
    intro c hc
    simp only [applyOp] at hc
    rw [carts_getCart] at hc
    exact h c hc
  | addToCart request now => exact CartsInv_addToCart st request now h
  | removeFromCart itemId now => exact CartsInv_removeFromCart st itemId now h
  | createOrder request now => exact CartsInv_createOrder st request now h
  | getOrders =>
    intro c hc
    simp only [applyOp] at hc
    rw [carts_getOrders] at hc
    exact h c hc
  | getAllOrders =>
    intro c hc
    simp only [applyOp] at hc
    rw [carts_getAllOrders] at hc
    exact h c hc
  | updateOrderStatus orderId status now =>
    intro c hc
    simp only [applyOp] at hc
    rw [carts_updateOrderStatus] at hc
    exact h c hc

/-- Claim C3: every cart reachable in the store satisfies
`totalAmount = Σ price * quantity` over its lines; `addToCart` and
`removeFromCart` re-establish the invariant after modifying the item list;
the lazily created cart starts with an empty item list and total 0; and
`removeFromCart` of the only line yields an empty item list and total 0. -/
theorem cart_total_invariant :
    (∀ st, Reachable st → CartsInv st) ∧
    (∀ st request now, CartsInv st → CartsInv (addToCart st request now).2) ∧
    (∀ st itemId now, CartsInv st → CartsInv (removeFromCart st itemId now).2) ∧
    (∀ cid uid now, (newEmptyCart cid uid now).items = [] ∧
      (newEmptyCart cid uid now).totalAmount = 0) ∧
    (∀ st itemId now u cart item,
      st.currentUser = some u →
      st.carts.find? (fun c => c.userId == u.id) = some cart →
      cart.items = [item] → item.id = itemId →
      ∃ r, (removeFromCart st itemId now).1 = .ok r ∧
        r.data.items = [] ∧ r.data.totalAmount = 0) := by
  refine ⟨?_, CartsInv_addToCart, CartsInv_removeFromCart,
    fun cid uid now => ⟨rfl, rfl⟩, ?_⟩
  · intro st h
    induction h with
    | init => intro c hc; simp [initialState] at hc
    | step op hst ih => exact CartsInv_applyOp op _ ih
  · intro st itemId now u cart item hu hcart hitems hid
    unfold removeFromCart
    simp only [hu, hcart]
    refine ⟨_, rfl, ?_, ?_⟩
    · simp [createMockResponse, hitems, hid]
    · simp [createMockResponse, hitems, hid, cartTotal]

/-- Witness for C3 at concrete inputs: the module-load state is reachable
and satisfies the invariant; adding to and removing from concrete carts keeps
it; and removing the single line `item-1` from a one-line cart empties it. -/
theorem cart_total_invariant_witness :
    CartsInv initialState ∧
    CartsInv (addToCart stCustomerWithCart { productId := "prod-1", quantity := 3 } "t").2 ∧
    (∃ r, (removeFromCart
        { initialState with
          currentUser := some customerUser,
          carts := [{ id := "cart-9", userId := "customer-1",
                      items := [sampleCartItem],
                      totalAmount := cartTotal [sampleCartItem], updatedAt := "t0" }] }
        "item-1" "t1").1 = .ok r ∧
      r.data.items = [] ∧ r.data.totalAmount = 0) :=
  ⟨cart_total_invariant.1 initialState Reachable.init,
   cart_total_invariant.2.1 stCustomerWithCart { productId := "prod-1", quantity := 3 } "t"
     (fun c hc => by
        rcases List.mem_singleton.mp hc with rfl
        exact rfl),
   cart_total_invariant.2.2.2.2
     { initialState with
       currentUser := some customerUser,
       carts := [{ id := "cart-9", userId := "customer-1",
                   items := [sampleCartItem],
                   totalAmount := cartTotal [sampleCartItem], updatedAt := "t0" }] }
     "item-1" "t1" customerUser
     { id := "cart-9", userId := "customer-1", items := [sampleCartItem],
       totalAmount := cartTotal [sampleCartItem], updatedAt := "t0" }
     sampleCartItem rfl rfl rfl rfl⟩

/-- Adding to an absent or empty cart yields a one-line cart for the current
user: the response cart has exactly the new line (product snapshot and
requested quantity), and the stored cart array resolves the user's id to that
cart, while products and the current-user pointer are untouched. -/
theorem addToCart_fresh (st : MockState) (pid : String) (q : Int) (now : String)
    (u : User) (P : Product)
    (hu : st.currentUser = some u)
    (hp : st.products.find? (fun p => p.id == pid) = some P)
    (hcart : st.carts.find? (fun c => c.userId == u.id) = none ∨
      ∃ c0, st.carts.find? (fun c => c.userId == u.id) = some c0 ∧ c0.items = []) :
    ∃ cart2 item,
      (addToCart st { productId := pid, quantity := q } now).1 =
        .ok (createMockResponse cart2) ∧
      cart2.items = [item] ∧
      item.productId = pid ∧ item.product = P ∧ item.quantity = q ∧
      (addToCart st { productId := pid, quantity := q } now).2.currentUser =
        st.currentUser ∧
      (addToCart st { productId := pid, quantity := q } now).2.products =
        st.products ∧
      (addToCart st { productId := pid, quantity := q } now).2.carts.find?
        (fun c => c.userId == u.id) = some cart2 := by
  rcases hcart with hfound | ⟨c0, hfound, h0⟩
  · have hadd : addToCart st { productId := pid, quantity := q } now =
        (.ok (createMockResponse
          { id := mkId st.nextId, userId := u.id,
            items := [{ id := mkId (st.nextId + 1), productId := pid, product := P,
                        quantity := q, addedAt := now }],
            totalAmount := cartTotal
              [{ id := mkId (st.nextId + 1), productId := pid, product := P,
                 quantity := q, addedAt := now }],
            updatedAt := now }),
         { st with
           carts := setFirstP (fun c => c.id == mkId st.nextId)
             { id := mkId st.nextId, userId := u.id,
               items := [{ id := mkId (st.nextId + 1), productId := pid, product := P,
                           quantity := q, addedAt := now }],
               totalAmount := cartTotal
                 [{ id := mkId (st.nextId + 1), productId := pid, product := P,
                    quantity := q, addedAt := now }],
               updatedAt := now }
             (st.carts ++ [newEmptyCart (mkId st.nextId) u.id now]),
           nextId := st.nextId + 1 + 1 }) := by
      unfold addToCart
      simp only [hu, hp, hfound, newEmptyCart, List.any_nil, List.nil_append,
        Bool.false_eq_true, if_false]
    refine ⟨{ id := mkId st.nextId, userId := u.id,
              items := [{ id := mkId (st.nextId + 1), productId := pid, product := P,
                          quantity := q, addedAt := now }],
              totalAmount := cartTotal
                [{ id := mkId (st.nextId + 1), productId := pid, product := P,
                   quantity := q, addedAt := now }],
              updatedAt := now },
            { id := mkId (st.nextId + 1), productId := pid, product := P,
              quantity := q, addedAt := now },
            ?_, rfl, rfl, rfl, rfl, ?_, ?_, ?_⟩
    · rw [hadd]
    · rw [hadd]
    · rw [hadd]
    · rw [hadd]
      have hfind2 : (st.carts ++ [newEmptyCart (mkId st.nextId) u.id now]).find?
          (fun c => c.userId == u.id) = some (newEmptyCart (mkId st.nextId) u.id now) := by
        rw [List.find?_append, hfound]
        simp [newEmptyCart]
      exact find?_setFirstP hfind2 (by simp [newEmptyCart]) (by simp)
  · have hq0 : (c0.userId == u.id) = true :=
      List.find?_some (p := fun c : Cart => c.userId == u.id) hfound
    have hadd : addToCart st { productId := pid, quantity := q } now =
        (.ok (createMockResponse
          { id := c0.id, userId := c0.userId,
            items := [{ id := mkId st.nextId, productId := pid, product := P,
                        quantity := q, addedAt := now }],
            totalAmount := cartTotal
              [{ id := mkId st.nextId, productId := pid, product := P,
                 quantity := q, addedAt := now }],
            updatedAt := now }),
         { st with
           carts := setFirstP (fun c => c.id == c0.id)
             { id := c0.id, userId := c0.userId,
               items := [{ id := mkId st.nextId, productId := pid, product := P,
                           quantity := q, addedAt := now }],
               totalAmount := cartTotal
                 [{ id := mkId st.nextId, productId := pid, product := P,
                    quantity := q, addedAt := now }],
               updatedAt := now }
             st.carts,
           nextId := st.nextId + 1 }) := by
      unfold addToCart
      simp only [hu, hp, hfound, h0, List.any_nil, List.nil_append,
        Bool.false_eq_true, if_false]
    refine ⟨{ id := c0.id, userId := c0.userId,
              items := [{ id := mkId st.nextId, productId := pid, product := P,
                          quantity := q, addedAt := now }],
              totalAmount := cartTotal
                [{ id := mkId st.nextId, productId := pid, product := P,
                   quantity := q, addedAt := now }],
              updatedAt := now },
            { id := mkId st.nextId, productId := pid, product := P,
              quantity := q, addedAt := now },
            ?_, rfl, rfl, rfl, rfl, ?_, ?_, ?_⟩
    · rw [hadd]
    · rw [hadd]
    · rw [hadd]
    · rw [hadd]
      exact find?_setFirstP hfound (by simp [beq_self_eq_true]) hq0

/-- Adding a product that already has a line in the current user's cart
merges: the line's quantity is bumped by the requested quantity and the total
is recomputed from the merged line. -/
theorem addToCart_merge (st : MockState) (pid : String) (q : Int) (now : String)
    (u : User) (P : Product) (cart : Cart) (item : CartItem)
    (hu : st.currentUser = some u)
    (hp : st.products.find? (fun p => p.id == pid) = some P)
    (hcart : st.carts.find? (fun c => c.userId == u.id) = some cart)
    (hitems : cart.items = [item]) (hipid : item.productId = pid) :
    ∃ r, (addToCart st { productId := pid, quantity := q } now).1 = .ok r ∧
      r.data.items.map (fun i => (i.productId, i.product, i.quantity)) =
        [(item.productId, item.product, item.quantity + q)] ∧
      r.data.totalAmount = item.product.price * ((item.quantity : ℚ) + (q : ℚ)) := by
  have hadd : (addToCart st { productId := pid, quantity := q } now).1 =
      .ok (createMockResponse
        { id := cart.id, userId := cart.userId,
          items := [{ item with quantity := item.quantity + q }],
          totalAmount := cartTotal [{ item with quantity := item.quantity + q }],
          updatedAt := now }) := by
    unfold addToCart
    simp only [hu, hp, hcart, hitems, List.any_cons, List.any_nil, hipid,
      beq_self_eq_true, Bool.or_false, if_true, bumpFirstItem, if_pos]
  refine ⟨_, hadd, ?_, ?_⟩
  · rfl
  · show cartTotal [{ item with quantity := item.quantity + q }] =
      item.product.price * ((item.quantity : ℚ) + (q : ℚ))
    simp only [cartTotal, List.foldl_cons, List.foldl_nil]
    push_cast
    ring

/-- Claim C2: two `addToCart` calls for the same product, on an initially
absent or empty cart, yield a cart with exactly one line for that product
carrying quantity `q1 + q2`, and a total of `price * (q1 + q2)`. -/
theorem addToCart_twice_single_line (st : MockState) (pid : String) (q1 q2 : Int)
    (now1 now2 : String) (u : User) (P : Product)
    (hu : st.currentUser = some u)
    (hp : st.products.find? (fun p => p.id == pid) = some P)
    (hcart : st.carts.find? (fun c => c.userId == u.id) = none ∨
      ∃ c0, st.carts.find? (fun c => c.userId == u.id) = some c0 ∧ c0.items = []) :
    ∃ r, (addToCart (addToCart st { productId := pid, quantity := q1 } now1).2
        { productId := pid, quantity := q2 } now2).1 = .ok r ∧
      r.data.items.map (fun i => (i.productId, i.product, i.quantity)) =
        [(pid, P, q1 + q2)] ∧
      r.data.totalAmount = P.price * ((q1 : ℚ) + (q2 : ℚ)) := by
  obtain ⟨cart2, item, _hok, hitems, hpid, hprod, hqty, hcu, hprods, hfind⟩ :=
    addToCart_fresh st pid q1 now1 u P hu hp hcart
  have hu1 : (addToCart st { productId := pid, quantity := q1 } now1).2.currentUser =
      some u := by rw [hcu, hu]
  have hp1 : (addToCart st { productId := pid, quantity := q1 } now1).2.products.find?
      (fun p => p.id == pid) = some P := by rw [hprods]; exact hp
  obtain ⟨r, hr1, hrmap, hrtotal⟩ :=
    addToCart_merge _ pid q2 now2 u P cart2 item hu1 hp1 hfind hitems hpid
  refine ⟨r, hr1, ?_, ?_⟩
  · rw [hrmap, hpid, hprod, hqty]
  · rw [hrtotal, hprod, hqty]

/-- Witness for C2: adding `prod-1` with quantities 2 then 3 for a signed-in
customer with no cart yields one line with quantity 5 and total
`12.99 * 5`. -/
theorem addToCart_twice_single_line_witness :
    ∃ r, (addToCart (addToCart stCustomerNoCart
        { productId := "prod-1", quantity := 2 } "t1").2
        { productId := "prod-1", quantity := 3 } "t2").1 = .ok r ∧
      r.data.items.map (fun i => (i.productId, i.product, i.quantity)) =
        [("prod-1", seedProductA, 2 + 3)] ∧
      r.data.totalAmount = seedProductA.price * ((2 : ℚ) + (3 : ℚ)) :=
  addToCart_twice_single_line stCustomerNoCart "prod-1" 2 3 "t1" "t2"
    customerUser seedProductA rfl rfl (.inl rfl)
